import Mathlib

/-!
Verification development for the Newsense AI chatbot repository
(`chatbot_API.py` and `app.py`).

The Python source is shallowly embedded:
* pure helpers become Lean functions;
* Python exceptions become `Except PyErr`;
* calendar dates are `Date` records with a proleptic-Gregorian ordinal
  (the same ordinal Python's `datetime.date.toordinal` uses);
* external collaborators (the HTTP session, `json.loads`, the language
  model, the offline client's `get_latest_telemetry`) are parameters of
  the embedded functions, so theorems quantify over their behaviour.

Similarity cutoffs of `difflib.get_close_matches` are compared as exact
rationals (`2*M/T ≥ num/den` cross-multiplied).  Python compares floats;
for strings shorter than about 10^15 characters the float comparison
against 0.6 and 0.7 agrees with the exact rational one, so nothing is
lost on realistic device names.
-/

/-- Python exception values that the embedded code can raise. -/
inductive PyErr where
  | valueError
  | indexError
  | overflowError
  | jsonDecodeError
  | connectionError
  deriving DecidableEq, Repr

/- =====================================================================
Calendar arithmetic (mirrors Python `datetime.date` at day granularity).
===================================================================== -/

/-- Gregorian leap-year test, as in Python's `calendar.isleap`. -/
def isLeap (y : Nat) : Bool :=
  y % 4 == 0 && (y % 100 != 0 || y % 400 == 0)

/-- Length of month `m` (1-12) of year `y`. -/
def monthLen (y m : Nat) : Nat :=
  if m = 2 then (if isLeap y then 29 else 28)
  else if m = 4 || m = 6 || m = 9 || m = 11 then 30
  else 31

/-- Days in months `1..m-1` of year `y`. -/
def daysBeforeMonth (y : Nat) : Nat → Nat
  | 0 => 0
  | m + 1 => daysBeforeMonth y m + (if 1 ≤ m then monthLen y m else 0)

/-- A calendar date, year ≥ 1 when valid (Python `datetime.MINYEAR = 1`). -/
structure Date where
  year : Nat
  month : Nat
  day : Nat
  deriving DecidableEq, Repr

/-- Validity of a date: exactly the dates `datetime.date` can represent
(we do not bound the year above; parsing bounds it to 4 digits). -/
def dateValid (dt : Date) : Bool :=
  1 ≤ dt.year && 1 ≤ dt.month && dt.month ≤ 12 &&
    1 ≤ dt.day && dt.day ≤ monthLen dt.year dt.month

/-- Proleptic-Gregorian ordinal of a date; `toOrd ⟨1,1,1⟩ = 1`, matching
Python's `date.toordinal`. -/
def toOrd (dt : Date) : Nat :=
  365 * (dt.year - 1) + (dt.year - 1) / 4 - (dt.year - 1) / 100
    + (dt.year - 1) / 400 + daysBeforeMonth dt.year dt.month + dt.day

/-- Scan months to locate a day-of-year; fuel is always 12 at call sites. -/
def monthScan (y : Nat) : Nat → Nat → Nat → Nat × Nat
  | doy, m, 0 => (m, doy)
  | doy, m, fuel + 1 =>
    if doy ≤ monthLen y m then (m, doy)
    else monthScan y (doy - monthLen y m) (m + 1) fuel

/-- Inverse of `toOrd`, following the arithmetic of Python's
`date.fromordinal` (400/100/4/1-year cycles, the 100- and 1-year
quotients capped at 3 so that Dec 31 of a leap cycle lands in the
right year). -/
def fromOrd (n : Nat) : Date :=
  let n0 := n - 1
  let n400 := n0 / 146097
  let r1 := n0 % 146097
  let n100 := min (r1 / 36524) 3
  let r2 := r1 - n100 * 36524
  let n4 := r2 / 1461
  let r3 := r2 % 1461
  let n1 := min (r3 / 365) 3
  let r4 := r3 - n1 * 365
  let y := 400 * n400 + 100 * n100 + 4 * n4 + n1 + 1
  let md := monthScan y (r4 + 1) 1 12
  ⟨y, md.1, md.2⟩

/-- Zero-pad to two digits (strftime `%m`, `%d`). -/
def pad2 (n : Nat) : String :=
  if n < 10 then "0" ++ toString n else toString n

/-- Zero-pad to four digits (strftime `%Y` as rendered by glibc for the
years ≥ 1000 that this system ever produces). -/
def pad4 (n : Nat) : String :=
  if n < 10 then "000" ++ toString n
  else if n < 100 then "00" ++ toString n
  else if n < 1000 then "0" ++ toString n
  else toString n

/-- `strftime("%Y-%m-%d")`. -/
def formatDate (dt : Date) : String :=
  pad4 dt.year ++ "-" ++ pad2 dt.month ++ "-" ++ pad2 dt.day

/- =====================================================================
Date-string parsing (mirrors `datetime.strptime` for the three formats
the code uses; `%Y` is exactly four digits, `%m`/`%d` one or two digits,
the whole string must be consumed, and the resulting date must be a
valid calendar date, otherwise `ValueError` — modelled as `none`).
===================================================================== -/

/-- ASCII digit test (the queries and dates use ASCII digits; the
Unicode digits that Python's `\d`/`int` would also accept are not
modelled). -/
def isDig (c : Char) : Bool := 48 ≤ c.toNat && c.toNat ≤ 57

def digitVal (c : Char) : Nat := c.toNat - 48

def natOfDigits (ds : List Char) : Nat :=
  ds.foldl (fun a c => 10 * a + digitVal c) 0

/-- Split a character list on a separator character. -/
def splitChar (sep : Char) : List Char → List (List Char)
  | [] => [[]]
  | c :: cs =>
    let r := splitChar sep cs
    if c == sep then [] :: r
    else
      match r with
      | [] => [[c]]
      | h :: t => (c :: h) :: t

/-- Parse a non-empty all-digit segment. -/
def parseNatSeg (cs : List Char) : Option Nat :=
  if cs ≠ [] && cs.all isDig then some (natOfDigits cs) else none

/-- `datetime.strptime(s, "%Y-%m-%d")`, returning `none` on `ValueError`. -/
def parseYMD (s : String) : Option Date :=
  match splitChar '-' s.toList with
  | [ys, ms, ds] =>
    if ys.length = 4 && 1 ≤ ms.length && ms.length ≤ 2
        && 1 ≤ ds.length && ds.length ≤ 2 then
      match parseNatSeg ys, parseNatSeg ms, parseNatSeg ds with
      | some y, some m, some d =>
        if dateValid ⟨y, m, d⟩ then some ⟨y, m, d⟩ else none
      | _, _, _ => none
    else none
  | _ => none

/-- `datetime.strptime(s, "%d<sep>%m<sep>%Y")` for sep `/` or `-`. -/
def parseDMY (sep : Char) (s : String) : Option Date :=
  match splitChar sep s.toList with
  | [ds, ms, ys] =>
    if ys.length = 4 && 1 ≤ ms.length && ms.length ≤ 2
        && 1 ≤ ds.length && ds.length ≤ 2 then
      match parseNatSeg ys, parseNatSeg ms, parseNatSeg ds with
      | some y, some m, some d =>
        if dateValid ⟨y, m, d⟩ then some ⟨y, m, d⟩ else none
      | _, _, _ => none
    else none
  | _ => none

/-- The `norm` helper inside `chatbot` (chatbot_API.py lines 266-271):
`None`/empty is `None`; otherwise try `%Y-%m-%d`, `%d/%m/%Y`,
`%d-%m-%Y` in order and re-render as `%Y-%m-%d`. -/
def normDate (s? : Option String) : Option String :=
  match s? with
  | none => none
  | some s =>
    if s = "" then none
    else
      match parseYMD s with
      | some d => some (formatDate d)
      | none =>
        match parseDMY '/' s with
        | some d => some (formatDate d)
        | none => (parseDMY '-' s).map formatDate

/- =====================================================================
Temporal resolver: `interpret_relative_time` (chatbot_API.py 137-197).
===================================================================== -/

/-- Does `needle` start `hay`? -/
def startsWithL : List Char → List Char → Bool
  | [], _ => true
  | _ :: _, [] => false
  | a :: as, b :: bs => a == b && startsWithL as bs

/-- Python's `needle in hay` substring test. -/
def isSubList (needle : List Char) : List Char → Bool
  | [] => needle.isEmpty
  | c :: rest => startsWithL needle (c :: rest) || isSubList needle rest

/-- ASCII lower-casing; stands in for Python `str.lower()` (the
queries' Vietnamese key phrases are already lower case, so only ASCII
letters matter for the embedded rules). -/
def asciiLower (s : String) : String := String.mk (s.toList.map Char.toLower)

/-- The fixed recency phrases of `interpret_relative_time`. -/
def recencyPhrases : List String :=
  ["mới nhất", "hiện tại", "giá trị bao nhiêu", "lần cuối", "is what value"]

/-- `is_latest` detection: any recency phrase occurs in the text. -/
def hasRecency (text : List Char) : Bool :=
  recencyPhrases.any fun p => isSubList p.toList text

inductive TUnit where
  | day
  | week
  | month
  | year
  deriving DecidableEq, Repr

/-- The ordered alternation `(ngày|tuần|tháng|năm)` tested as a prefix. -/
def unitAt (cs : List Char) : Option TUnit :=
  if startsWithL "ngày".toList cs then some .day
  else if startsWithL "tuần".toList cs then some .week
  else if startsWithL "tháng".toList cs then some .month
  else if startsWithL "năm".toList cs then some .year
  else none

/-- Python `\s` whitespace (ASCII part). -/
def isWs (c : Char) : Bool :=
  c == ' ' || c == '\t' || c == '\n' || c == '\r' || c.toNat == 11 || c.toNat == 12

/-- `re.search(r"(\d+)\s*(ngày|tuần|tháng|năm)", text)`: leftmost
position where a digit run, optional whitespace and a unit word match.
Since no unit word starts with a digit or whitespace, the regex engine's
backtracking never helps, so scanning each start position with maximal
digit/whitespace runs is exact. -/
def findNumUnit : List Char → Option (Nat × TUnit)
  | [] => none
  | c :: rest =>
    if isDig c then
      let digits := (c :: rest).takeWhile isDig
      let after := (c :: rest).dropWhile isDig
      match unitAt (after.dropWhile isWs) with
      | some u => some (natOfDigits digits, u)
      | none => findNumUnit rest
    else findNumUnit rest

/-- Date range produced by shifting `now` back by `k` days, rendering
both bounds with strftime; `OverflowError` when the shifted date would
fall before year 1, exactly where Python's `datetime - timedelta`
raises. -/
def shiftedRange (now : Date) (k : Nat) (isLat : Bool) :
    Except PyErr (Option String × Option String × Bool) :=
  if toOrd now ≤ k then .error .overflowError
  else .ok (some (formatDate (fromOrd (toOrd now - k))), some (formatDate now), isLat)

/-- Body of `interpret_relative_time` (chatbot_API.py 137-197) over
the lower-cased text, against a fixed `now`.  Returns
`(start, end, is_latest)` rendered as `%Y-%m-%d` strings, or the
Python exception the function would raise (`ValueError` from
`datetime(year, 1, 1)` with year < 1, `OverflowError` from an
out-of-range `timedelta` subtraction).
`is_latest` is computed once in the Python and read in each branch, so
here each branch reads `hasRecency text`. -/
def interpCore (text : List Char) (now : Date) :
    Except PyErr (Option String × Option String × Bool) :=
  if isSubList "hôm nay".toList text then
    .ok (some (formatDate now), some (formatDate now), hasRecency text)
  else if isSubList "hôm qua".toList text then
    if toOrd now ≤ 1 then .error .overflowError
    else
      .ok (some (formatDate (fromOrd (toOrd now - 1))),
           some (formatDate (fromOrd (toOrd now - 1))), hasRecency text)
  else
    match findNumUnit text with
    | some (n, u) =>
      match u with
      | .day => shiftedRange now n (hasRecency text)
      | .week => shiftedRange now (7 * n) (hasRecency text)
      | .month => shiftedRange now (30 * n) (hasRecency text)
      | .year =>
        if now.year < n then .error .valueError
        else
          .ok (some (formatDate ⟨now.year - n + 1, 1, 1⟩),
               some (formatDate now), hasRecency text)
    | none =>
      if isSubList "tuần này".toList text then
        shiftedRange now ((toOrd now + 6) % 7) (hasRecency text)
      else if isSubList "tháng này".toList text then
        .ok (some (formatDate ⟨now.year, now.month, 1⟩),
             some (formatDate now), hasRecency text)
      else if isSubList "từ đầu năm".toList text then
        .ok (some (formatDate ⟨now.year, 1, 1⟩), some (formatDate now), hasRecency text)
      else if isSubList "năm ngoái".toList text then
        .ok (some (toString (now.year - 1) ++ "-01-01"),
             some (toString (now.year - 1) ++ "-12-31"), hasRecency text)
      else if hasRecency text then shiftedRange now 1 true
      else .ok (none, none, false)

/-- `interpret_relative_time(query)` over a fixed `now`: lower-case,
then apply the rule chain. -/
def interpRelTime (query : String) (now : Date) :
    Except PyErr (Option String × Option String × Bool) :=
  interpCore ((asciiLower query).toList) now

/- =====================================================================
difflib: `SequenceMatcher` ratio and `get_close_matches` (no `isjunk`
argument, so the junk set is empty; `autojunk` excludes popular
characters from `b2j` only when the second sequence has ≥ 200
characters, exactly as in CPython).
===================================================================== -/

/-- Indices of `c` in `b`, ascending — one entry of CPython's `b2j`
mapping, with the autojunk "popular" exclusion. -/
def b2j (b : List Char) (c : Char) : List Nat :=
  if b.length ≥ 200 && b.count c > b.length / 100 + 1 then []
  else (List.range b.length).filter fun j => b.getD j ' ' == c

/-- The dynamic-programming core of `find_longest_match`: for
`i in range(alo, ahi)` and each `j` of `b2j[a[i]]` inside `[blo, bhi)`,
`k = j2len.get(j-1, 0) + 1`, keeping the first strictly larger block. -/
def flmCore (a b : List Char) (alo ahi blo bhi : Nat) : Nat × Nat × Nat :=
  let step := fun (st : (Nat → Nat) × (Nat × Nat × Nat)) (i : Nat) =>
    let old := st.1
    let js := (b2j b (a.getD i ' ')).filter fun j => blo ≤ j && j < bhi
    js.foldl (fun (st2 : (Nat → Nat) × (Nat × Nat × Nat)) j =>
      let k := (if j = 0 then 0 else old (j - 1)) + 1
      let nf := fun x => if x = j then k else st2.1 x
      let nb := if k > st2.2.2.2 then (i + 1 - k, j + 1 - k, k) else st2.2
      (nf, nb)) ((fun _ => 0), st.2)
  ((List.range' alo (ahi - alo)).foldl step ((fun _ => 0), (alo, blo, 0))).2

/-- Leftward non-junk extension loop of `find_longest_match`; the junk
set is empty here, so `isbjunk` is constantly false.  `fuel` is the
current `besti`, which bounds the number of steps. -/
def extLeftGo (a b : List Char) (alo blo : Nat) : Nat → Nat → Nat → Nat
  | _, _, 0 => 0
  | bi, bj, fuel + 1 =>
    if alo < bi && blo < bj && (a.getD (bi - 1) ' ' == b.getD (bj - 1) ' ') then
      1 + extLeftGo a b alo blo (bi - 1) (bj - 1) fuel
    else 0

/-- Rightward non-junk extension loop of `find_longest_match`. -/
def extRightGo (a b : List Char) (ahi bhi : Nat) : Nat → Nat → Nat → Nat
  | _, _, 0 => 0
  | ai, bj, fuel + 1 =>
    if ai < ahi && bj < bhi && (a.getD ai ' ' == b.getD bj ' ') then
      1 + extRightGo a b ahi bhi (ai + 1) (bj + 1) fuel
    else 0

/-- `SequenceMatcher.find_longest_match(alo, ahi, blo, bhi)` with an
empty junk set: DP core, then both non-junk extension loops (the junk
extension loops are no-ops because `isbjunk` is constantly false). -/
def findLongestMatch (a b : List Char) (alo ahi blo bhi : Nat) : Nat × Nat × Nat :=
  let core := flmCore a b alo ahi blo bhi
  let bi := core.1
  let bj := core.2.1
  let bs := core.2.2
  let el := extLeftGo a b alo blo bi bj bi
  let bi2 := bi - el
  let bj2 := bj - el
  let bs2 := bs + el
  let er := extRightGo a b ahi bhi (bi2 + bs2) (bj2 + bs2) (ahi - (bi2 + bs2))
  (bi2, bj2, bs2 + er)

/-- Total size of the matching blocks of `get_matching_blocks`,
computed by the same recursive decomposition around each longest match.
Each recursive region is strictly smaller, so fuel
`(ahi - alo) + (bhi - blo) + 1` can never run out. -/
def matchSum (a b : List Char) : Nat → Nat → Nat → Nat → Nat → Nat
  | 0, _, _, _, _ => 0
  | fuel + 1, alo, ahi, blo, bhi =>
    let m := findLongestMatch a b alo ahi blo bhi
    let i := m.1
    let j := m.2.1
    let k := m.2.2
    if k = 0 then 0
    else
      matchSum a b fuel alo i blo j + k + matchSum a b fuel (i + k) ahi (j + k) bhi

/-- `M` of `SequenceMatcher(None, a, b).ratio() = 2*M/T`. -/
def matchTotal (a b : List Char) : Nat :=
  matchSum a b (a.length + b.length + 1) 0 a.length 0 b.length

/-- `ratio ≥ num/den` as an exact rational comparison; `T = 0` means
both strings empty, where CPython defines the ratio as 1.0. -/
def scoreGe (m t num den : Nat) : Bool :=
  if t = 0 then num ≤ den else num * t ≤ 2 * m * den

/-- Strict comparison of two scored candidates as `heapq.nlargest`
compares the `(ratio, string)` tuples: first the ratios as rationals
(`T = 0` counting as ratio 1), then the strings by code point. -/
def charListLt : List Char → List Char → Bool
  | [], [] => false
  | [], _ :: _ => true
  | _ :: _, [] => false
  | a :: as, b :: bs => if a < b then true else if b < a then false else charListLt as bs

def scoredGt (p q : (Nat × Nat) × List Char) : Bool :=
  let pn := if p.1.2 = 0 then 1 else 2 * p.1.1
  let pd := if p.1.2 = 0 then 1 else p.1.2
  let qn := if q.1.2 = 0 then 1 else 2 * q.1.1
  let qd := if q.1.2 = 0 then 1 else q.1.2
  if qn * pd < pn * qd then true
  else if pn * qd < qn * pd then false
  else charListLt q.2 p.2

def insertDesc (x : (Nat × Nat) × List Char) :
    List ((Nat × Nat) × List Char) → List ((Nat × Nat) × List Char)
  | [] => [x]
  | y :: ys => if scoredGt y x then y :: insertDesc x ys else x :: y :: ys

/-- Descending sort of the scored candidates; ties between equal scores
cannot feature equal strings because directory keys are distinct, and
`nlargest` breaks such ties by the string component anyway. -/
def sortDescScored (l : List ((Nat × Nat) × List Char)) :
    List ((Nat × Nat) × List Char) :=
  l.foldr insertDesc []

/-- `difflib.get_close_matches(word, possibilities, n, num/den)`:
filter by ratio ≥ cutoff (the quick upper-bound ratios never exclude a
candidate the true ratio admits), take the `n` largest `(ratio, x)`
tuples, return the strings. -/
def getCloseMatches (word : String) (poss : List String) (n num den : Nat) :
    List String :=
  let scored := poss.filterMap fun x =>
    let m := matchTotal x.toList word.toList
    let t := x.length + word.length
    if scoreGe m t num den then some ((m, t), x.toList) else none
  ((sortDescScored scored).take n).map fun p => String.mk p.2

/- =====================================================================
Fetch orchestrator (app.py 76-122).  The device directory is the
insertion-ordered `name -> id` dict, modelled as an association list
with distinct names; the telemetry client lives in the missing
`offline_chatbot` module and is passed in as a function.
===================================================================== -/

/-- First-match association lookup, i.e. `dict.get`. -/
def lookupStr (m : List (String × String)) (k : String) : Option String :=
  match m with
  | [] => none
  | (k2, v) :: rest => if k2 = k then some v else lookupStr rest k

/-- `dev_map.keys()` in insertion order. -/
def devKeys (m : List (String × String)) : List String := m.map fun p => p.1

/-- The fuzzy arm of the resolution expression in `fetch_single`
(app.py line 83):
`dev_map.get(get_close_matches(d_name, keys, n=1, cutoff=0.7)[0]
 if get_close_matches(d_name, keys) else None)`.
The guard calls `get_close_matches` with the DEFAULT cutoff 0.6 while
the indexed call uses cutoff 0.7, so a best similarity in [0.6, 0.7)
passes the guard yet indexes an empty list: `IndexError`.
`dev_map.get(None)` is `None`. -/
def fuzzyResolve (devMap : List (String × String)) (dName : String) :
    Except PyErr (Option String) :=
  if (getCloseMatches dName (devKeys devMap) 3 3 5).isEmpty then .ok none
  else
    match getCloseMatches dName (devKeys devMap) 1 7 10 with
    | [] => .error .indexError
    | w :: _ => .ok (lookupStr devMap w)

/-- `d_id = dev_map.get(d_name) or dev_map.get(...fuzzy...)`
(app.py line 83); `or` falls through on a falsy (empty) id. -/
def resolveDeviceId (devMap : List (String × String)) (dName : String) :
    Except PyErr (Option String) :=
  match lookupStr devMap dName with
  | some v => if v = "" then fuzzyResolve devMap dName else .ok (some v)
  | none => fuzzyResolve devMap dName

/-- One requested `(Device, Tên biến, Tên thiết bị?)` dict from the
model's `devices` list. -/
structure FetchReq where
  device : String
  varName : String
  display : Option String
  deriving DecidableEq, Repr

/-- A point of the returned time series (`ts`, numeric `value`); the
float value type is abstracted to `Int`, which no claim depends on. -/
structure DataPoint where
  ts : Int
  value : Int
  deriving DecidableEq, Repr

/-- A successful per-request result of `fetch_single`
(`{"label": ..., "data": df, "v": ...}`). -/
structure SeriesItem where
  label : String
  data : List DataPoint
  v : String
  deriving DecidableEq, Repr

/-- `fetch_single(info)` (app.py 80-90): resolve the device label
(UNPROTECTED: a raised `IndexError` escapes), then fetch inside
`try/except: pass`, dropping failures and empty frames.  `fetchFn`
stands for `client.get_timeseries` of the `offline_chatbot` client,
closed over by `(start, end)` as in the Python closure. -/
def fetchSingle (devMap : List (String × String))
    (fetchFn : String → String → String → String → Except PyErr (List DataPoint))
    (startD endD : String) (r : FetchReq) : Except PyErr (Option SeriesItem) :=
  match resolveDeviceId devMap r.device with
  | .error e => .error e
  | .ok idOpt =>
    match idOpt with
    | some dId =>
      if dId = "" then .ok none
      else
        match fetchFn dId r.varName startD endD with
        | .error _ => .ok none
        | .ok df =>
          if df.isEmpty then .ok none
          else .ok (some ⟨(r.display.getD r.device) ++ " (" ++ r.varName ++ ")", df, r.varName⟩)
    | none => .ok none

/-- Sequence a list of fallible computations, stopping at the first
exception — `list(executor.map(...))` delivers results in input order
and re-raises the first worker exception when its slot is reached. -/
def exceptMapM {α β : Type} (f : α → Except PyErr β) : List α → Except PyErr (List β)
  | [] => .ok []
  | a :: as =>
    match f a with
    | .error e => .error e
    | .ok b =>
      match exceptMapM f as with
      | .error e => .error e
      | .ok bs => .ok (b :: bs)

/-- `fetch_data_parallel(devices, start, end)` (app.py 76-93):
worker-pool map over the requests (order-preserving), then
`[r for r in ... if r]`. -/
def fetchDataParallel (devMap : List (String × String))
    (fetchFn : String → String → String → String → Except PyErr (List DataPoint))
    (reqs : List FetchReq) (startD endD : String) :
    Except PyErr (List SeriesItem) :=
  match exceptMapM (fetchSingle devMap fetchFn startD endD) reqs with
  | .error e => .error e
  | .ok rs => .ok rs.reduceOption

/-- One row of a "latest values" answer.  Modelled from the spec: the
offline client's `get_latest_telemetry` is absent from `src/`; its
per-device result rows are opaque records collected by the status
variant. -/
structure StatusRow where
  device : String
  key : String
  value : String
  deriving DecidableEq, Repr

/-- One entry of the `device_groups` dict of `fetch_status_parallel`:
insertion-ordered, keyed by resolved device id, keeping the first
resolving label as `name` and accumulating `keys`. -/
structure DevGroup where
  id : String
  name : String
  keys : List String
  deriving DecidableEq, Repr

/-- Append a variable under its device id, creating the group at the
end on first sight (dict insertion order). -/
def addKeyToGroup : List DevGroup → String → String → String → List DevGroup
  | [], i, nm, v => [⟨i, nm, [v]⟩]
  | g :: gs, i, nm, v =>
    if g.id = i then ⟨g.id, g.name, g.keys ++ [v]⟩ :: gs
    else g :: addKeyToGroup gs i nm v

/-- One iteration of the grouping loop: `if d_id and v_name:` append
the variable under the resolved id, else leave the groups unchanged. -/
def groupStep (acc : List DevGroup) (idOpt : Option String) (dName vName : String) :
    List DevGroup :=
  match idOpt with
  | some i =>
    if i ≠ "" && vName ≠ "" then addKeyToGroup acc i dName vName else acc
  | none => acc

/-- The grouping loop of `fetch_status_parallel` (app.py 100-108); the
device resolution reuses the same unprotected expression, so it can
raise, aborting the whole batch. -/
def buildGroupsAux (devMap : List (String × String)) :
    List DevGroup → List FetchReq → Except PyErr (List DevGroup)
  | acc, [] => .ok acc
  | acc, r :: rest =>
    match resolveDeviceId devMap r.device with
    | .error e => .error e
    | .ok idOpt => buildGroupsAux devMap (groupStep acc idOpt r.device r.varName) rest

def buildGroups (devMap : List (String × String)) (reqs : List FetchReq) :
    Except PyErr (List DevGroup) :=
  buildGroupsAux devMap [] reqs

/-- The status variant's `fetch_single(args)`: one
`client.get_latest_telemetry(d_id, name, keys)` call inside
`try/except: return []`. -/
def rowsOf (getLatest : String → String → List String → Except PyErr (List StatusRow))
    (g : DevGroup) : List StatusRow :=
  match getLatest g.id g.name g.keys with
  | .ok rows => rows
  | .error _ => []

/-- `fetch_status_parallel(devices)` (app.py 95-122): group variables
per resolved device id, issue one latest-values call per group, extend
`results` with each non-empty answer (extending with `[]` is the same
as skipping it). -/
def fetchStatusParallel (devMap : List (String × String))
    (getLatest : String → String → List String → Except PyErr (List StatusRow))
    (reqs : List FetchReq) : Except PyErr (List StatusRow) :=
  match buildGroups devMap reqs with
  | .error e => .error e
  | .ok gs => .ok (gs.map (rowsOf getLatest)).flatten

/- =====================================================================
Telemetry client: `NewsenseClient.get_timeseries` (chatbot_API.py
78-131).  The HTTP session is a parameter; timestamps are epoch
milliseconds computed from the ordinal (the local-clock offset of
`datetime.timestamp()` is not modelled; no claim depends on it).
===================================================================== -/

/-- The request parameters assembled for
`GET .../values/timeseries` (startTs/endTs/keys plus either
interval+agg or limit). -/
structure TsParams where
  startTs : Int
  endTs : Int
  keys : String
  interval : Option Nat
  agg : Option String
  limit : Option Nat
  deriving DecidableEq, Repr

/-- Ordinal of 1970-01-01. -/
def epochOrd : Nat := 719163

def dayMs : Nat := 86400000

/-- Parameter construction of `get_timeseries` (chatbot_API.py 83-116):
day-boundary epoch bounds, then the span-based aggregation ladder;
`duration_days = (end_dt - start_dt).days` equals the ordinal
difference for every order of the bounds because the 86399-second
remainder always floors away. -/
def tsStartMs (d : Date) : Int := ((toOrd d : Int) - (epochOrd : Int)) * (dayMs : Int)

def tsEndMs (d : Date) : Int := tsStartMs d + 86399000

def buildParams (ds de : Date) (key : String) : TsParams :=
  if 90 < (toOrd de : Int) - (toOrd ds : Int) then
    ⟨tsStartMs ds, tsEndMs de, key, some (dayMs * 7), some "AVG", none⟩
  else if 30 < (toOrd de : Int) - (toOrd ds : Int) then
    ⟨tsStartMs ds, tsEndMs de, key, some dayMs, some "AVG", none⟩
  else if 7 < (toOrd de : Int) - (toOrd ds : Int) then
    ⟨tsStartMs ds, tsEndMs de, key, some 3600000, some "AVG", none⟩
  else ⟨tsStartMs ds, tsEndMs de, key, none, none, some 10000⟩

/-- A decoded HTTP response: status code and the JSON body as a map
from key to raw points; a raw point's value is `none` when
`pd.to_numeric(..., errors="coerce")` would fail on it. -/
structure RawPoint where
  ts : Int
  value : Option Int
  deriving DecidableEq, Repr

structure TsResponse where
  status : Nat
  body : List (String × List RawPoint)
  deriving DecidableEq, Repr

def lookupRows (body : List (String × List RawPoint)) (k : String) :
    Option (List RawPoint) :=
  match body with
  | [] => none
  | (k2, v) :: rest => if k2 = k then some v else lookupRows rest k

/-- `get_timeseries(device_id, key, start, end)` (chatbot_API.py
78-131).  Only the `strptime` calls sit inside the `try`, so a date
`ValueError` yields an empty frame, while the `session.get` call (and
anything it raises) is OUTSIDE every `try` and propagates.  Non-200
responses and empty payloads yield an empty frame; non-numeric values
are dropped. -/
def getTimeseries (session : String → TsParams → Except PyErr TsResponse)
    (deviceId key startStr endStr : String) : Except PyErr (List DataPoint) :=
  match parseYMD startStr, parseYMD endStr with
  | some ds, some de =>
    match session deviceId (buildParams ds de key) with
    | .error e => .error e
    | .ok resp =>
      if resp.status ≠ 200 then .ok []
      else if ((lookupRows resp.body key).getD []).isEmpty then .ok []
      else .ok (((lookupRows resp.body key).getD []).filterMap
        fun pt => pt.value.map fun v => (⟨pt.ts, v⟩ : DataPoint))
  | _, _ => .ok []

/-- The aggregation table of spec §4.3, written from the spec's words:
spans over 90 days use 7-day average buckets, over 30 days 1-day
average buckets, over 7 days 1-hour average buckets, and spans of at
most 7 days raw data capped at 10000 points. -/
def specAgg (span : Int) : Option Nat × Option String × Option Nat :=
  if 90 < span then (some 604800000, some "AVG", none)
  else if 30 < span ∧ span ≤ 90 then (some 86400000, some "AVG", none)
  else if 7 < span ∧ span ≤ 30 then (some 3600000, some "AVG", none)
  else (none, none, some 10000)

/- =====================================================================
Query orchestrator: `chatbot` (chatbot_API.py 222-282).  The language
model is abstracted: `content` is the cleaned reply text and
`jsonLoads` models `json.loads` returning a parsed result or failing.
The knowledge-graph projection and prompt assembly only feed the model
and are not modelled.
===================================================================== -/

/-- The parsed extraction dict; fields the merge logic touches.
`is_latest` is `none` when the key is absent. -/
structure MResult where
  location : Option String
  start_date : Option String
  end_date : Option String
  is_latest : Option Bool
  devices : List FetchReq
  deriving DecidableEq, Repr

/-- Opening brace. -/
def lbrace : Char := Char.ofNat 123

/-- Closing brace. -/
def rbrace : Char := Char.ofNat 125

def idxOfChar (c : Char) (cs : List Char) : Option Nat :=
  cs.findIdx? fun x => x == c

def lastIdxOfChar (c : Char) (cs : List Char) : Option Nat :=
  match idxOfChar c cs.reverse with
  | none => none
  | some i => some (cs.length - 1 - i)

/-- `re.search(r"(\{.*\})", content, re.DOTALL)`: with a greedy `.*`
the match runs from the first opening brace to the last closing brace
at or after it; no earlier closing brace can end a match. -/
def extractBraced (content : String) : Option String :=
  let cs := content.toList
  match idxOfChar lbrace cs with
  | none => none
  | some i =>
    match lastIdxOfChar rbrace cs with
    | none => none
    | some j => if i ≤ j then some (String.mk ((cs.drop i).take (j - i + 1))) else none

/-- The parse step of `chatbot` (chatbot_API.py 252-257): `json.loads`
on the cleaned text; on failure, brace extraction and a SECOND
`json.loads` that is NOT inside any `try`, so its failure raises
`json.JSONDecodeError`; no braces means "no result this turn". -/
def parseContent (jsonLoads : String → Option MResult) (content : String) :
    Except PyErr (Option MResult) :=
  match jsonLoads content with
  | some r => .ok (some r)
  | none =>
    match extractBraced content with
    | some sub =>
      match jsonLoads sub with
      | some r => .ok (some r)
      | none => .error .jsonDecodeError
    | none => .ok none

/-- `if not result.get('end_date'): result['end_date'] = now...`
(chatbot_API.py 275) applied to the normalized end date: a missing or
empty value defaults to today. -/
def defaultEnd (now : Date) (eN : Option String) : Option String :=
  match eN with
  | none => some (formatDate now)
  | some t => if t = "" then some (formatDate now) else some t

/-- `days = 1 if result.get('is_latest') else 30` (chatbot_API.py 277),
reading the merged result's flag with Python truthiness. -/
def defaultDays (r1 : MResult) : Nat :=
  if r1.is_latest = some true then 1 else 30

/-- `result['start_date'] = (now - timedelta(days=days))...`
(chatbot_API.py 276-278) applied to the normalized start date: a
missing or empty value defaults to `days` back — the `timedelta`
subtraction raising `OverflowError` below year 1 exactly as Python's
would. -/
def defaultStartStr (now : Date) (dd : Nat) (sN : Option String) :
    Except PyErr (Option String) :=
  match sN with
  | none =>
    if toOrd now ≤ dd then .error .overflowError
    else .ok (some (formatDate (fromOrd (toOrd now - dd))))
  | some t =>
    if t = "" then
      if toOrd now ≤ dd then .error .overflowError
      else .ok (some (formatDate (fromOrd (toOrd now - dd))))
    else .ok (some t)

/-- The fallback normalization branch (chatbot_API.py 264-278):
normalize both model dates, default the missing ones.  Only the start
default can raise, so evaluating it first preserves the Python
outcome. -/
def fallbackNorm (now : Date) (r1 : MResult) : Except PyErr MResult :=
  match defaultStartStr now (defaultDays r1) (normDate r1.start_date) with
  | .error e => .error e
  | .ok s2 =>
    .ok { r1 with start_date := s2,
                  end_date := defaultEnd now (normDate r1.end_date) }

/-- The date merge (chatbot_API.py 262-278): a concrete deterministic
range replaces both dates entirely, otherwise fall back to
normalization and defaults. -/
def mergeAux (rs re : Option String) (now : Date) (r1 : MResult) :
    Except PyErr MResult :=
  match rs, re with
  | some s, some e => .ok { r1 with start_date := some s, end_date := some e }
  | _, _ => fallbackNorm now r1

/-- The merge and normalization step (chatbot_API.py 259-278): a truthy
deterministic `is_latest` forces the flag to `True` first
(`if is_latest: result['is_latest'] = True`), then the dates are
merged. -/
def mergeResult (rs re : Option String) (isLat : Bool) (now : Date) (r : MResult) :
    Except PyErr MResult :=
  mergeAux rs re now (if isLat then { r with is_latest := some true } else r)

/-- One conversation turn `{"role": ..., "content": ...}`. -/
structure Turn where
  role : String
  content : String
  deriving DecidableEq, Repr

/-- Canonical rendering of the result appended as the assistant turn;
stands in for `json.dumps(result)` — no claim inspects this text. -/
def renderResult (r : MResult) : String :=
  let os := fun (x : Option String) =>
    match x with
    | none => "null"
    | some s => "\"" ++ s ++ "\""
  "start=" ++ os r.start_date ++ ";end=" ++ os r.end_date ++ ";latest=" ++
    (match r.is_latest with
     | none => "absent"
     | some true => "true"
     | some false => "false") ++
    ";devices=" ++ toString r.devices.length

/-- `chatbot(query, kg_df, chat_history, model)` (chatbot_API.py
222-282) with the language model's cleaned reply given as `content`.
Returns `(None, history)` on an extraction miss, otherwise the merged
result together with the history extended by the user and assistant
turns; exceptions of the resolver, of the second `json.loads`, and of
the default-date arithmetic propagate. -/
def chatbot (jsonLoads : String → Option MResult) (now : Date) (query : String)
    (content : String) (history : List Turn) :
    Except PyErr (Option MResult × List Turn) :=
  match interpRelTime query now with
  | .error e => .error e
  | .ok (rs, re, isLat) =>
    match parseContent jsonLoads content with
    | .error e => .error e
    | .ok none => .ok (none, history)
    | .ok (some r) =>
      match mergeResult rs re isLat now r with
      | .error e => .error e
      | .ok merged =>
        .ok (some merged,
             history ++ [⟨"user", query⟩, ⟨"assistant", renderResult merged⟩])

/- =====================================================================
Theorems.
===================================================================== -/

/-- C4: the claim says that on an exact miss a fuzzy candidate below
similarity 0.7 makes the resolution return no match (`None`) rather
than any other outcome.  The code instead raises: for the directory
`{"abd": "id1"}` and request `"abc"` the similarity is 2·2/6 = 2/3,
which passes the guard call `get_close_matches(name, keys)` at its
default cutoff 0.6, yet the indexed call with cutoff 0.7 returns an
empty list, so `[0]` raises `IndexError`.  This theorem evaluates the
embedded resolver at that input. -/
theorem c4_resolver_raises_in_gap :
    lookupStr [("abd", "id1")] "abc" = none ∧
    getCloseMatches "abc" (devKeys [("abd", "id1")]) 3 3 5 = ["abd"] ∧
    getCloseMatches "abc" (devKeys [("abd", "id1")]) 1 7 10 = [] ∧
    resolveDeviceId [("abd", "id1")] "abc" = .error .indexError :=
  ⟨rfl, rfl, rfl, rfl⟩

/-- C2: the claim says a batch with exactly one unresolvable device
label yields exactly N-1 series and never raises.  With the directory
`{"abd": "id1"}` and the two requests `"abd"` and `"abc"` (the second
unresolvable — its best similarity 2/3 is below the 0.7 acceptance
cutoff), the whole batch raises `IndexError` out of the resolution
expression instead of returning the one resolvable series. -/
theorem c2_batch_raises_on_similarity_gap :
    fetchSingle [("abd", "id1")] (fun _ _ _ _ => .ok [⟨0, 1⟩]) "2026-10-01" "2026-10-05"
        ⟨"abd", "temp", none⟩ =
      .ok (some ⟨"abd (temp)", [⟨0, 1⟩], "temp"⟩) ∧
    fetchDataParallel [("abd", "id1")] (fun _ _ _ _ => .ok [⟨0, 1⟩])
        [⟨"abd", "temp", none⟩, ⟨"abc", "temp", none⟩] "2026-10-01" "2026-10-05" =
      .error .indexError :=
  ⟨rfl, rfl⟩

/-- C3 counterexample: the claim says any network or API error inside
`get_timeseries` is caught and converted to an empty result, never
propagated.  A session raising a connection error on valid dates
propagates out of the call: the `session.get` line is outside every
`try` block. -/
theorem c3_counterexample :
    getTimeseries (fun _ _ => .error .connectionError) "dev" "key"
        "2026-10-01" "2026-10-02" = .error .connectionError ∧
    (getTimeseries (fun _ _ => .error .connectionError) "dev" "key"
        "2026-10-01" "2026-10-02").isOk = false :=
  ⟨rfl, rfl⟩

/-- C3 amended: malformed dates, non-success responses and empty
payloads become an empty result, and the only exceptions
`get_timeseries` can propagate are the ones raised by the underlying
HTTP session itself: every error outcome of the embedded client is an
error returned by `session` on the request the client built. -/
theorem c3_errors_only_from_session
    (session : String → TsParams → Except PyErr TsResponse)
    (deviceId key startStr endStr : String) (err : PyErr)
    (h : getTimeseries session deviceId key startStr endStr = .error err) :
    ∃ p : TsParams, session deviceId p = .error err := by
  unfold getTimeseries at h
  split at h
  · rename_i ds de hds hde
    split at h
    · rename_i e hs
      exact ⟨buildParams ds de key, by rw [hs]; injection h with h2; rw [h2]⟩
    · split at h
      · exact absurd h (by simp)
      · split at h
        · exact absurd h (by simp)
        · exact absurd h (by simp)
  · exact absurd h (by simp)

theorem c3_witness :
    ∃ p : TsParams,
      (fun (_ : String) (_ : TsParams) =>
        (.error .connectionError : Except PyErr TsResponse)) "dev" p =
      .error .connectionError :=
  c3_errors_only_from_session
    (fun _ _ => .error .connectionError) "dev" "key" "2026-10-01" "2026-10-02"
    .connectionError rfl

/-- C7: for every pair of well-formed dates, the request parameters
built by `get_timeseries` select the aggregation of the spec's table
from the span in days: >90 days 7-day AVG buckets, >30 days 1-day AVG
buckets, >7 days 1-hour AVG buckets, and at most 7 days raw data
capped at 10000 points. -/
theorem c7_aggregation_table (startStr endStr key : String) (ds de : Date)
    (h1 : parseYMD startStr = some ds) (h2 : parseYMD endStr = some de) :
    ((buildParams ds de key).interval, (buildParams ds de key).agg,
      (buildParams ds de key).limit) =
      specAgg ((toOrd de : Int) - (toOrd ds : Int)) := by
  unfold buildParams specAgg
  split_ifs <;> first | rfl | (exfalso; omega)

theorem c7_witness :
    parseYMD "2026-01-01" = some ⟨2026, 1, 1⟩ ∧
    parseYMD "2026-05-01" = some ⟨2026, 5, 1⟩ ∧
    ((buildParams ⟨2026, 1, 1⟩ ⟨2026, 5, 1⟩ "k").interval,
      (buildParams ⟨2026, 1, 1⟩ ⟨2026, 5, 1⟩ "k").agg,
      (buildParams ⟨2026, 1, 1⟩ ⟨2026, 5, 1⟩ "k").limit) =
      specAgg ((toOrd ⟨2026, 5, 1⟩ : Int) - (toOrd ⟨2026, 1, 1⟩ : Int)) :=
  ⟨rfl, rfl, c7_aggregation_table "2026-01-01" "2026-05-01" "k" ⟨2026, 1, 1⟩ ⟨2026, 5, 1⟩ rfl rfl⟩

/-- C8 counterexample: the claim covers every positive N, but the query
`"3000 năm"` (with the current year 2026) drives
`datetime(now.year - N + 1, 1, 1)` below `MINYEAR`, so the resolver
raises `ValueError` instead of producing January 1 of that year. -/
theorem c8_counterexample :
    findNumUnit ((asciiLower "3000 năm").toList) = some (3000, .year) ∧
    interpRelTime "3000 năm" ⟨2026, 10, 12⟩ = .error .valueError :=
  ⟨rfl, rfl⟩

/-- The start date the claim predicts for a numeric `N unit` match:
today minus N days, minus 7N days, minus 30N days, or January 1 of
year `now.year - N + 1`. -/
def numStart (u : TUnit) (n : Nat) (now : Date) : String :=
  match u with
  | .day => formatDate (fromOrd (toOrd now - n))
  | .week => formatDate (fromOrd (toOrd now - 7 * n))
  | .month => formatDate (fromOrd (toOrd now - 30 * n))
  | .year => formatDate ⟨now.year - n + 1, 1, 1⟩

/-- Guard: the shifted start stays inside the calendar (year ≥ 1), so
the Python date arithmetic does not raise. -/
def numGuard (u : TUnit) (n : Nat) (now : Date) : Bool :=
  match u with
  | .day => decide (n < toOrd now)
  | .week => decide (7 * n < toOrd now)
  | .month => decide (30 * n < toOrd now)
  | .year => decide (n ≤ now.year)

/-- C8 amended: for a query whose (lower-cased) text does not contain
"hôm nay" or "hôm qua" and whose first numeric match is `N unit` with
N ≥ 1, the resolver returns end = today and start = today minus N days
(unit days), minus 7N days (weeks), minus 30N days (months), or
January 1 of year `now.year - N + 1` (years) — provided the resulting
date does not fall before year 1 of the calendar (`numGuard`), since
otherwise the code raises instead of resolving. -/
theorem c8_numeric_rule (query : String) (now : Date) (n : Nat) (u : TUnit)
    (h1 : isSubList "hôm nay".toList ((asciiLower query).toList) = false)
    (h2 : isSubList "hôm qua".toList ((asciiLower query).toList) = false)
    (h3 : findNumUnit ((asciiLower query).toList) = some (n, u))
    (h4 : 1 ≤ n)
    (h5 : numGuard u n now = true) :
    interpRelTime query now =
      .ok (some (numStart u n now), some (formatDate now),
        hasRecency ((asciiLower query).toList)) := by
  unfold interpRelTime interpCore
  rw [h1, h2, h3]
  cases u with
  | day =>
    simp only [numGuard, decide_eq_true_eq] at h5
    simp only [numStart, shiftedRange, Bool.false_eq_true, if_false]
    rw [if_neg (by omega)]
  | week =>
    simp only [numGuard, decide_eq_true_eq] at h5
    simp only [numStart, shiftedRange, Bool.false_eq_true, if_false]
    rw [if_neg (by omega)]
  | month =>
    simp only [numGuard, decide_eq_true_eq] at h5
    simp only [numStart, shiftedRange, Bool.false_eq_true, if_false]
    rw [if_neg (by omega)]
  | year =>
    simp only [numGuard, decide_eq_true_eq] at h5
    simp only [numStart, Bool.false_eq_true, if_false]
    rw [if_neg (by omega)]

theorem c8_witness :
    isSubList "hôm nay".toList ((asciiLower "3 ngày").toList) = false ∧
    findNumUnit ((asciiLower "3 ngày").toList) = some (3, .day) ∧
    interpRelTime "3 ngày" ⟨2026, 10, 12⟩ =
      .ok (some (numStart .day 3 ⟨2026, 10, 12⟩),
        some (formatDate ⟨2026, 10, 12⟩),
        hasRecency ((asciiLower "3 ngày").toList)) :=
  ⟨rfl, rfl,
    c8_numeric_rule "3 ngày" ⟨2026, 10, 12⟩ 3 .day rfl rfl rfl (by omega) (by decide)⟩

/-- C1 counterexample: the claim says a deterministic `is_latest` of
false replaces a model-supplied true.  For the turn `"hôm nay"` the
resolver yields a concrete range with `is_latest = false`, the model
reply carries `is_latest = true`, and the merged result keeps `true`:
the code only ever forces the flag TO true
(`if is_latest: result['is_latest'] = True`), never overwrites it with
false. -/
theorem c1_counterexample :
    interpRelTime "hôm nay" ⟨2026, 10, 12⟩ =
      .ok (some "2026-10-12", some "2026-10-12", false) ∧
    chatbot (fun _ => some ⟨none, none, none, some true, []⟩) ⟨2026, 10, 12⟩
        "hôm nay" "x" [] =
      .ok (some ⟨none, some "2026-10-12", some "2026-10-12", some true, []⟩,
        [⟨"user", "hôm nay"⟩,
         ⟨"assistant",
          renderResult ⟨none, some "2026-10-12", some "2026-10-12", some true, []⟩⟩]) ∧
    (some true : Option Bool) ≠ some false :=
  ⟨rfl, rfl, by decide⟩

/-- C1 amended: whenever the deterministic resolver produced a concrete
range, the merged result takes the resolver's start and end dates,
replacing the model's, and its `is_latest` is merged by disjunction: a
deterministic true forces `some true`, a deterministic false leaves
the model's flag unchanged. -/
theorem c1_merge_overrides (jl : String → Option MResult) (now : Date)
    (query content : String) (history : List Turn) (s e : String) (lat : Bool)
    (r : MResult)
    (h1 : interpRelTime query now = .ok (some s, some e, lat))
    (h2 : parseContent jl content = .ok (some r)) :
    chatbot jl now query content history =
      .ok (some { r with start_date := some s, end_date := some e,
                         is_latest := if lat then some true else r.is_latest },
        history ++ [⟨"user", query⟩,
          ⟨"assistant",
           renderResult { r with start_date := some s, end_date := some e,
                                 is_latest := if lat then some true else r.is_latest }⟩]) := by
  unfold chatbot
  rw [h1, h2]
  cases lat <;> rfl

theorem c1_witness :
    chatbot (fun _ => some ⟨some "loc", some "1/1/2020", none, none, []⟩)
        ⟨2026, 10, 12⟩ "hôm nay" "x" [] =
      .ok (some { (⟨some "loc", some "1/1/2020", none, none, []⟩ : MResult) with
                    start_date := some "2026-10-12", end_date := some "2026-10-12",
                    is_latest := if false then some true
                      else (⟨some "loc", some "1/1/2020", none, none, []⟩ : MResult).is_latest },
        [] ++ [⟨"user", "hôm nay"⟩,
          ⟨"assistant",
           renderResult { (⟨some "loc", some "1/1/2020", none, none, []⟩ : MResult) with
                            start_date := some "2026-10-12", end_date := some "2026-10-12",
                            is_latest := if false then some true
                              else (⟨some "loc", some "1/1/2020", none, none, []⟩ : MResult).is_latest }⟩]) :=
  c1_merge_overrides (fun _ => some ⟨some "loc", some "1/1/2020", none, none, []⟩)
    ⟨2026, 10, 12⟩ "hôm nay" "x" [] "2026-10-12" "2026-10-12" false
    ⟨some "loc", some "1/1/2020", none, none, []⟩ rfl rfl

/-- C5 counterexample: the claim also asserts `start_date <= end_date`
on every successful turn, but the fallback path keeps whatever dates
the model returned without ordering them: with no temporal phrase in
the query and a model reply carrying start `2025-12-31` and end
`2024-01-01`, the turn succeeds with start strictly after end. -/
theorem c5_counterexample :
    chatbot (fun _ => some ⟨none, some "2025-12-31", some "2024-01-01", some false, []⟩)
        ⟨2026, 10, 12⟩ "xin chào" "x" [] =
      .ok (some ⟨none, some "2025-12-31", some "2024-01-01", some false, []⟩,
        [⟨"user", "xin chào"⟩,
         ⟨"assistant",
          renderResult ⟨none, some "2025-12-31", some "2024-01-01", some false, []⟩⟩]) ∧
    toOrd ⟨2024, 1, 1⟩ < toOrd ⟨2025, 12, 31⟩ :=
  ⟨rfl, by decide⟩

/-- Every result of `fallbackNorm` has both dates populated. -/
theorem fallbackNorm_isSome (now : Date) (r1 m : MResult)
    (h : fallbackNorm now r1 = .ok m) :
    m.start_date.isSome = true ∧ m.end_date.isSome = true := by
  unfold fallbackNorm at h
  split at h
  · exact absurd h (by simp)
  · rename_i s2 hs2
    injection h with h2
    subst h2
    refine ⟨?_, ?_⟩
    · show s2.isSome = true
      unfold defaultStartStr at hs2
      split at hs2
      · split at hs2
        · exact absurd hs2 (by simp)
        · injection hs2 with h3; rw [← h3]; rfl
      · split at hs2
        · split at hs2
          · exact absurd hs2 (by simp)
          · injection hs2 with h3; rw [← h3]; rfl
        · injection hs2 with h3; rw [← h3]; rfl
    · show (defaultEnd now (normDate r1.end_date)).isSome = true
      unfold defaultEnd
      split
      · rfl
      · split <;> rfl

/-- Every result of the merge step has both dates populated. -/
theorem mergeResult_isSome (rs re : Option String) (isLat : Bool) (now : Date)
    (r m : MResult) (h : mergeResult rs re isLat now r = .ok m) :
    m.start_date.isSome = true ∧ m.end_date.isSome = true := by
  unfold mergeResult mergeAux at h
  split at h
  · injection h with h2
    subst h2
    exact ⟨rfl, rfl⟩
  · exact fallbackNorm_isSome now _ m h

/-- C5 amended: on every turn on which the Query Orchestrator returns a
result, the returned query object has non-null `start_date` and
`end_date` (absent or unparsable dates are replaced by defaults); the
ordering `start_date <= end_date` is NOT guaranteed on the fallback
path. -/
theorem c5_dates_nonnull (jl : String → Option MResult) (now : Date)
    (query content : String) (history hist2 : List Turn) (res : MResult)
    (hc : chatbot jl now query content history = .ok (some res, hist2)) :
    res.start_date.isSome = true ∧ res.end_date.isSome = true := by
  unfold chatbot at hc
  split at hc
  · exact absurd hc (by simp)
  · split at hc
    · exact absurd hc (by simp)
    · injection hc with h2
      exact absurd (congrArg Prod.fst h2) (by simp)
    · rename_i r hp
      split at hc
      · exact absurd hc (by simp)
      · rename_i merged hm
        injection hc with h2
        have h3 := congrArg Prod.fst h2
        simp only at h3
        injection h3 with h4
        subst h4
        exact mergeResult_isSome _ _ _ _ _ _ hm

theorem c5_witness :
    chatbot (fun _ => some ⟨none, some "2026-01-02", some "2026-01-03", none, []⟩)
        ⟨2026, 10, 12⟩ "xin chào" "x" [] =
      .ok (some ⟨none, some "2026-01-02", some "2026-01-03", none, []⟩,
        [⟨"user", "xin chào"⟩,
         ⟨"assistant",
          renderResult ⟨none, some "2026-01-02", some "2026-01-03", none, []⟩⟩]) ∧
    (⟨none, some "2026-01-02", some "2026-01-03", none, []⟩ : MResult).start_date.isSome = true ∧
    (⟨none, some "2026-01-02", some "2026-01-03", none, []⟩ : MResult).end_date.isSome = true :=
  ⟨rfl,
    c5_dates_nonnull (fun _ => some ⟨none, some "2026-01-02", some "2026-01-03", none, []⟩)
      ⟨2026, 10, 12⟩ "xin chào" "x" []
      [⟨"user", "xin chào"⟩,
       ⟨"assistant",
        renderResult ⟨none, some "2026-01-02", some "2026-01-03", none, []⟩⟩]
      ⟨none, some "2026-01-02", some "2026-01-03", none, []⟩ rfl⟩

/-- C6 counterexample: the claim reads "no brace-delimited JSON object
can be extracted ⟹ the turn returns no result and the history is
unchanged".  When the reply is not valid JSON but DOES contain braces
around non-JSON text, the pattern search finds a substring, the second
`json.loads` sits outside every `try`, and the turn CRASHES with a
JSON decode error instead of returning no result: here the model of
`json.loads` rejects both the reply `"oops {garbage}"` and the
extracted `"{garbage}"`, neither of which is valid JSON. -/
theorem c6_counterexample :
    extractBraced "oops \x7bgarbage\x7d" = some "\x7bgarbage\x7d" ∧
    chatbot (fun _ => none) ⟨2026, 10, 12⟩ "xin chào" "oops \x7bgarbage\x7d" [] =
      .error .jsonDecodeError :=
  ⟨rfl, rfl⟩

/-- C6 amended: provided the temporal resolver itself does not raise,
a turn whose reply is not directly parsable and contains no
brace-delimited substring returns no result and leaves the history
exactly as it was; and on every successful turn exactly one user entry
(the query) followed by one assistant entry is appended.  When a
brace-delimited substring exists but is not valid JSON, the parse
error propagates instead (see the counterexample). -/
theorem c6_parse_failure_graceful (jl : String → Option MResult) (now : Date)
    (query content : String) (history : List Turn)
    (rs re : Option String) (lat : Bool)
    (h0 : interpRelTime query now = .ok (rs, re, lat)) :
    (jl content = none → extractBraced content = none →
        chatbot jl now query content history = .ok (none, history)) ∧
    (∀ res hist2, chatbot jl now query content history = .ok (some res, hist2) →
        hist2 = history ++ [⟨"user", query⟩, ⟨"assistant", renderResult res⟩]) := by
  constructor
  · intro h1 h2
    unfold chatbot
    rw [h0]
    unfold parseContent
    rw [h1, h2]
  · intro res hist2 hc
    unfold chatbot at hc
    rw [h0] at hc
    split at hc
    · rename_i e heq
      exact absurd heq (by simp)
    · rename_i rs2 re2 lat2 heq
      injection heq with hp
      injection hp with ha hb
      injection hb with hb1 hb2
      subst ha hb1 hb2
      split at hc
      · exact absurd hc (by simp)
      · injection hc with h2
        exact absurd (congrArg Prod.fst h2) (by simp)
      · split at hc
        · exact absurd hc (by simp)
        · rename_i merged hm
          injection hc with h2
          have hfst := congrArg Prod.fst h2
          have hsnd := congrArg Prod.snd h2
          simp only at hfst hsnd
          injection hfst with h3
          subst h3
          exact hsnd.symm

theorem c6_witness :
    chatbot (fun _ => none) ⟨2026, 10, 12⟩ "xin chào" "hello" [] = .ok (none, []) :=
  (c6_parse_failure_graceful (fun _ => none) ⟨2026, 10, 12⟩ "xin chào" "hello" []
    none none false rfl).1 rfl rfl

/-- C9 counterexample: per-device failure isolation does not survive an
unresolvable label whose best similarity lies in [0.6, 0.7): the
grouping loop reuses the unprotected resolution expression, so the
whole status batch raises `IndexError` and even the resolvable
device's rows are lost. -/
theorem c9_counterexample :
    fetchStatusParallel [("abd", "id1")]
        (fun i n ks => .ok [⟨n, String.join ks, i⟩])
        [⟨"abd", "t1", none⟩, ⟨"abc", "t2", none⟩] = .error .indexError ∧
    (fun (i n : String) (ks : List String) =>
        (.ok [⟨n, String.join ks, i⟩] : Except PyErr (List StatusRow)))
      "id1" "abd" ["t1"] = .ok [⟨"abd", "t1", "id1"⟩] :=
  ⟨rfl, rfl⟩

/-- Ids after `addKeyToGroup`: unchanged when the id already has a
group, extended at the back otherwise. -/
theorem addKeyToGroup_ids (gs : List DevGroup) (i nm v : String) :
    (addKeyToGroup gs i nm v).map DevGroup.id =
      (if i ∈ gs.map DevGroup.id then gs.map DevGroup.id
       else gs.map DevGroup.id ++ [i]) := by
  induction gs with
  | nil => simp [addKeyToGroup]
  | cons g rest ih =>
    by_cases hg : g.id = i
    · simp [addKeyToGroup, hg]
    · simp only [addKeyToGroup, if_neg hg, List.map_cons, ih]
      by_cases hm : i ∈ rest.map DevGroup.id
      · simp [hm, Ne.symm hg]
      · simp [hm, Ne.symm hg]

/-- `addKeyToGroup` preserves distinctness of the group ids. -/
theorem addKeyToGroup_nodup (gs : List DevGroup) (i nm v : String)
    (h : (gs.map DevGroup.id).Nodup) :
    ((addKeyToGroup gs i nm v).map DevGroup.id).Nodup := by
  rw [addKeyToGroup_ids]
  split
  · exact h
  · rename_i hm
    simp [List.nodup_append, h, hm]

/-- `groupStep` preserves distinctness of the group ids. -/
theorem groupStep_nodup (acc : List DevGroup) (idOpt : Option String)
    (dName vName : String) (h : (acc.map DevGroup.id).Nodup) :
    ((groupStep acc idOpt dName vName).map DevGroup.id).Nodup := by
  unfold groupStep
  split
  · split
    · exact addKeyToGroup_nodup acc _ dName vName h
    · exact h
  · exact h

/-- The grouping loop preserves distinctness of the accumulated ids. -/
theorem buildGroupsAux_nodup (devMap : List (String × String)) :
    ∀ (reqs : List FetchReq) (acc gs : List DevGroup),
      buildGroupsAux devMap acc reqs = .ok gs →
      (acc.map DevGroup.id).Nodup → (gs.map DevGroup.id).Nodup := by
  intro reqs
  induction reqs with
  | nil =>
    intro acc gs h hn
    unfold buildGroupsAux at h
    injection h with h2
    subst h2
    exact hn
  | cons r rest ih =>
    intro acc gs h hn
    unfold buildGroupsAux at h
    split at h
    · exact absurd h (by simp)
    · exact ih _ _ h (groupStep_nodup acc _ r.device r.varName hn)

/-- `addKeyToGroup` records the added variable under its id. -/
theorem addKeyToGroup_mem (gs : List DevGroup) (i nm v : String) :
    ∃ g ∈ addKeyToGroup gs i nm v, g.id = i ∧ v ∈ g.keys := by
  induction gs with
  | nil => exact ⟨⟨i, nm, [v]⟩, by simp [addKeyToGroup]⟩
  | cons g rest ih =>
    by_cases hg : g.id = i
    · refine ⟨⟨g.id, g.name, g.keys ++ [v]⟩, ?_, hg, by simp⟩
      simp [addKeyToGroup, hg]
    · obtain ⟨g2, hg2, hp⟩ := ih
      exact ⟨g2, by simp [addKeyToGroup, hg, hg2], hp⟩

/-- `addKeyToGroup` never removes an id/variable association that was
already present. -/
theorem addKeyToGroup_preserve (gs : List DevGroup) (i nm v i0 v0 : String)
    (h : ∃ g ∈ gs, g.id = i0 ∧ v0 ∈ g.keys) :
    ∃ g ∈ addKeyToGroup gs i nm v, g.id = i0 ∧ v0 ∈ g.keys := by
  induction gs with
  | nil => simp at h
  | cons g rest ih =>
    obtain ⟨g2, hg2, hid, hv⟩ := h
    by_cases hg : g.id = i
    · rcases List.mem_cons.mp hg2 with hh | ht
      · subst hh
        exact ⟨⟨g2.id, g2.name, g2.keys ++ [v]⟩, by simp [addKeyToGroup, hg],
          hid, by simp [hv]⟩
      · exact ⟨g2, by simp [addKeyToGroup, hg, ht], hid, hv⟩
    · rcases List.mem_cons.mp hg2 with hh | ht
      · subst hh
        exact ⟨g2, by simp [addKeyToGroup, hg], hid, hv⟩
      · obtain ⟨g3, hg3, hp3⟩ := ih ⟨g2, ht, hid, hv⟩
        exact ⟨g3, by simp [addKeyToGroup, hg, hg3], hp3⟩

/-- `groupStep` never removes an id/variable association. -/
theorem groupStep_preserve (acc : List DevGroup) (idOpt : Option String)
    (dName vName i0 v0 : String) (h : ∃ g ∈ acc, g.id = i0 ∧ v0 ∈ g.keys) :
    ∃ g ∈ groupStep acc idOpt dName vName, g.id = i0 ∧ v0 ∈ g.keys := by
  unfold groupStep
  split
  · split
    · exact addKeyToGroup_preserve acc _ dName vName i0 v0 h
    · exact h
  · exact h

/-- Associations present in the accumulator survive the rest of the
grouping loop. -/
theorem buildGroupsAux_preserve (devMap : List (String × String)) :
    ∀ (reqs : List FetchReq) (acc gs : List DevGroup) (i0 v0 : String),
      buildGroupsAux devMap acc reqs = .ok gs →
      (∃ g ∈ acc, g.id = i0 ∧ v0 ∈ g.keys) →
      ∃ g ∈ gs, g.id = i0 ∧ v0 ∈ g.keys := by
  intro reqs
  induction reqs with
  | nil =>
    intro acc gs i0 v0 h hmem
    unfold buildGroupsAux at h
    injection h with h2
    subst h2
    exact hmem
  | cons r rest ih =>
    intro acc gs i0 v0 h hmem
    unfold buildGroupsAux at h
    split at h
    · exact absurd h (by simp)
    · exact ih _ _ _ _ h (groupStep_preserve acc _ r.device r.varName i0 v0 hmem)

/-- Every request whose device resolves to a truthy id with a truthy
variable name ends up grouped under that id. -/
theorem buildGroupsAux_mem (devMap : List (String × String)) :
    ∀ (reqs : List FetchReq) (acc gs : List DevGroup) (r : FetchReq) (i : String),
      buildGroupsAux devMap acc reqs = .ok gs →
      r ∈ reqs →
      resolveDeviceId devMap r.device = .ok (some i) →
      i ≠ "" → r.varName ≠ "" →
      ∃ g ∈ gs, g.id = i ∧ r.varName ∈ g.keys := by
  intro reqs
  induction reqs with
  | nil =>
    intro acc gs r i h hr
    simp at hr
  | cons r0 rest ih =>
    intro acc gs r i h hr hres hi hv
    unfold buildGroupsAux at h
    split at h
    · exact absurd h (by simp)
    · rename_i idOpt heq
      rcases List.mem_cons.mp hr with hh | ht
      · subst hh
        rw [hres] at heq
        injection heq with h2
        subst h2
        rw [show groupStep acc (some i) r.device r.varName =
              addKeyToGroup acc i r.device r.varName by
            simp [groupStep, hi, hv]] at h
        exact buildGroupsAux_preserve devMap rest _ gs i r.varName h
          (addKeyToGroup_mem acc i r.device r.varName)
      · exact ih _ _ _ _ h ht hres hi hv

/-- C9 amended: provided no device label of the batch makes the
resolution expression raise (i.e. the grouping pass succeeds), the
status variant issues exactly one latest-values call per resolved
device id (the group ids are distinct), returns the concatenation of
the per-group answers with per-device failure isolation (an erroring
call contributes `[]`, leaving every other group's rows in place), and
every request whose device resolves (with a truthy id and variable)
is grouped under its device's id. -/
theorem c9_status_grouping (devMap : List (String × String))
    (getLatest : String → String → List String → Except PyErr (List StatusRow))
    (reqs : List FetchReq) (gs : List DevGroup)
    (h : buildGroups devMap reqs = .ok gs) :
    fetchStatusParallel devMap getLatest reqs =
      .ok ((gs.map (rowsOf getLatest)).flatten) ∧
    (gs.map DevGroup.id).Nodup ∧
    ∀ r ∈ reqs, ∀ i : String,
      resolveDeviceId devMap r.device = .ok (some i) → i ≠ "" → r.varName ≠ "" →
      ∃ g ∈ gs, g.id = i ∧ r.varName ∈ g.keys := by
  refine ⟨?_, ?_, ?_⟩
  · unfold fetchStatusParallel
    rw [h]
  · exact buildGroupsAux_nodup devMap reqs [] gs h (by simp)
  · intro r hr i hres hi hv
    exact buildGroupsAux_mem devMap reqs [] gs r i h hr hres hi hv

theorem c9_witness :
    fetchStatusParallel [("abd", "id1")]
        (fun i n ks => .ok [⟨n, String.join ks, i⟩])
        [⟨"abd", "t1", none⟩, ⟨"abd", "t2", none⟩] =
      .ok (([(⟨"id1", "abd", ["t1", "t2"]⟩ : DevGroup)].map
        (rowsOf (fun i n ks => .ok [⟨n, String.join ks, i⟩]))).flatten) :=
  (c9_status_grouping [("abd", "id1")]
    (fun i n ks => .ok [⟨n, String.join ks, i⟩])
    [⟨"abd", "t1", none⟩, ⟨"abd", "t2", none⟩]
    [⟨"id1", "abd", ["t1", "t2"]⟩] rfl).1

/-- Positions witnessing that `reduceOption` keeps elements in order:
a strictly increasing index list pointing each output at its `some`
cell of the input. -/
theorem reduceOption_indices {α : Type} (l : List (Option α)) :
    ∃ idxs : List Nat, List.Sorted (· < ·) idxs ∧
      List.Forall₂ (fun i o => l.get? i = some (some o)) idxs l.reduceOption := by
  induction l with
  | nil => exact ⟨[], List.sorted_nil, List.Forall₂.nil⟩
  | cons hd tl ih =>
    obtain ⟨idxs, hs, hf⟩ := ih
    have hshift : ∀ (out : List α) (ix : List Nat),
        List.Forall₂ (fun i o => tl.get? i = some (some o)) ix out →
        List.Forall₂ (fun i o => (hd :: tl).get? i = some (some o))
          (ix.map (· + 1)) out := by
      intro out ix hfa
      induction hfa with
      | nil => exact List.Forall₂.nil
      | cons hrel _ ih2 => exact List.Forall₂.cons hrel ih2
    have hsortshift : List.Sorted (· < ·) (idxs.map (· + 1)) := by
      simp only [List.Sorted, List.pairwise_map]
      exact hs.imp (by omega)
    cases hd with
    | none =>
      refine ⟨idxs.map (· + 1), hsortshift, ?_⟩
      rw [List.reduceOption_cons_of_none]
      exact hshift _ _ hf
    | some a =>
      refine ⟨0 :: idxs.map (· + 1), ?_, ?_⟩
      · rw [List.sorted_cons]
        exact ⟨by simp, hsortshift⟩
      · rw [List.reduceOption_cons_of_some]
        exact List.Forall₂.cons rfl (hshift _ _ hf)

/-- A successful `exceptMapM` maps each output position back to the
input element it came from. -/
theorem exceptMapM_ok_get {α β : Type} (f : α → Except PyErr β) :
    ∀ (l : List α) (bs : List β), exceptMapM f l = .ok bs →
      ∀ (i : Nat) (b : β), bs.get? i = some b →
        ∃ a, l.get? i = some a ∧ f a = .ok b := by
  intro l
  induction l with
  | nil =>
    intro bs h i b hb
    unfold exceptMapM at h
    injection h with h2
    subst h2
    simp at hb
  | cons hd tl ih =>
    intro bs h i b hb
    unfold exceptMapM at h
    split at h
    · exact absurd h (by simp)
    · rename_i b0 hf0
      split at h
      · exact absurd h (by simp)
      · rename_i bs0 hrest
        injection h with h2
        subst h2
        cases i with
        | zero =>
          simp only [List.get?] at hb
          injection hb with hb2
          subst hb2
          exact ⟨hd, rfl, hf0⟩
        | succ i2 =>
          simp only [List.get?] at hb
          obtain ⟨a, ha, hfa⟩ := ih bs0 hrest i2 b hb
          exact ⟨a, ha, hfa⟩

/-- C10: on every batch that returns, the successful series appear in
the same relative order as their originating requests: there is a
strictly increasing list of request indices whose requests produce
exactly the returned series, in order. -/
theorem c10_order_preserved (devMap : List (String × String))
    (fetchFn : String → String → String → String → Except PyErr (List DataPoint))
    (reqs : List FetchReq) (startD endD : String) (out : List SeriesItem)
    (hc : fetchDataParallel devMap fetchFn reqs startD endD = .ok out) :
    ∃ idxs : List Nat, List.Sorted (· < ·) idxs ∧
      List.Forall₂ (fun i o => ∃ r, reqs.get? i = some r ∧
        fetchSingle devMap fetchFn startD endD r = .ok (some o)) idxs out := by
  unfold fetchDataParallel at hc
  split at hc
  · exact absurd hc (by simp)
  · rename_i l hm
    injection hc with h2
    subst h2
    obtain ⟨idxs, hs, hf⟩ := reduceOption_indices l
    refine ⟨idxs, hs, hf.imp ?_⟩
    intro i o hio
    obtain ⟨a, ha, hfa⟩ := exceptMapM_ok_get _ reqs l hm i (some o) hio
    exact ⟨a, ha, hfa⟩

theorem c10_witness :
    ∃ idxs : List Nat, List.Sorted (· < ·) idxs ∧
      List.Forall₂ (fun i o => ∃ r,
        ([⟨"abd", "t1", none⟩, ⟨"abc", "zz", none⟩, ⟨"abd", "t2", none⟩] :
            List FetchReq).get? i = some r ∧
        fetchSingle [("abd", "id1"), ("abc", "id2")]
          (fun _ k _ _ => if k = "zz" then .ok [] else .ok [⟨0, 1⟩])
          "2026-10-01" "2026-10-05" r = .ok (some o)) idxs
        [⟨"abd (t1)", [⟨0, 1⟩], "t1"⟩, ⟨"abd (t2)", [⟨0, 1⟩], "t2"⟩] :=
  c10_order_preserved [("abd", "id1"), ("abc", "id2")]
    (fun _ k _ _ => if k = "zz" then .ok [] else .ok [⟨0, 1⟩])
    [⟨"abd", "t1", none⟩, ⟨"abc", "zz", none⟩, ⟨"abd", "t2", none⟩]
    "2026-10-01" "2026-10-05"
    [⟨"abd (t1)", [⟨0, 1⟩], "t1"⟩, ⟨"abd (t2)", [⟨0, 1⟩], "t2"⟩] rfl
